import Mathlib

/-!
Verification of the D-Engine `NullWindowModule` plugin
(`src/External/Rust/NullWindowModule/src/lib.rs`).

Shallow embedding: raw pointers are modelled as natural numbers with `0`
playing the role of the null pointer; the host allocator is modelled as an
oracle (a list of pointers it will return for successive `alloc` calls)
together with a ledger of every `alloc`/`free` call made through it; the
mutable `NullWindowCtx` is threaded explicitly through each operation.
Machine integers (`u32`/`u64`) only ever hold sizes, handles and status
codes here — no arithmetic is performed on them, so they are modelled as
`Nat`.  The Rust `catch_unwind` boundary guard is the identity on this pure
model, since no model function can panic.
-/

/-- Raw pointer model: `0` is the null pointer. -/
abbrev Ptr := Nat

/-- `dng_status_v1` from the source: a `u32` status code. -/
abbrev dng_status_v1 := Nat

def DNG_STATUS_OK : dng_status_v1 := 0
def DNG_STATUS_FAIL : dng_status_v1 := 1
def DNG_STATUS_INVALID_ARG : dng_status_v1 := 2
def DNG_STATUS_OUT_OF_MEMORY : dng_status_v1 := 3
def DNG_STATUS_UNSUPPORTED : dng_status_v1 := 4

def DNG_ABI_VERSION_V1 : Nat := 1

/-- `dng_abi_header_v1`: the `{struct_size, abi_version}` negotiation prefix. -/
structure dng_abi_header_v1 where
  struct_size : Nat
  abi_version : Nat
deriving DecidableEq

/-- `dng_str_view_v1`: borrowed byte pointer plus byte length. -/
structure dng_str_view_v1 where
  data : Ptr
  size : Nat
deriving DecidableEq

/-- `dng_window_desc_v1`. -/
structure dng_window_desc_v1 where
  width : Nat
  height : Nat
  title : dng_str_view_v1
  flags : Nat
deriving DecidableEq

/-- `dng_window_size_v1`. -/
structure dng_window_size_v1 where
  width : Nat
  height : Nat
deriving DecidableEq

/-- `dng_host_api_v1`.  The optional function pointers `log`, `alloc`, `free`
are modelled by presence flags; the behaviour of `alloc`/`free` lives in the
`Alloc` oracle/ledger below. -/
structure dng_host_api_v1 where
  header : dng_abi_header_v1
  user : Ptr
  log_present : Bool
  alloc_present : Bool
  free_present : Bool
deriving DecidableEq

/-- `dng_window_api_v1`: the window capability table handed to the host.
Function pointers are modelled by presence flags. -/
structure dng_window_api_v1 where
  header : dng_abi_header_v1
  ctx : Ptr
  create_present : Bool
  destroy_present : Bool
  poll_present : Bool
  get_size_present : Bool
  set_title_present : Bool
deriving DecidableEq

/-- `dng_module_api_v1`. -/
structure dng_module_api_v1 where
  header : dng_abi_header_v1
  module_name : dng_str_view_v1
  module_version_major : Nat
  module_version_minor : Nat
  module_version_patch : Nat
  window : dng_window_api_v1
  shutdown_present : Bool
deriving DecidableEq

/-- `NullWindowCtx`: the module-private context.  The `host` back-pointer is
modelled by the host table value it points at. -/
structure NullWindowCtx where
  host : dng_host_api_v1
  handle : Nat
  size : dng_window_size_v1
  title : Ptr
  title_size : Nat
deriving DecidableEq

/-- Compiled `size_of::<dng_host_api_v1>()` on the reference x86-64 target:
8 (header) + 8 (user) + 3 × 8 (function pointers). -/
def sizeof_dng_host_api_v1 : Nat := 40

/-- Compiled `size_of::<dng_window_api_v1>()`: 8 (header) + 8 (ctx) + 5 × 8. -/
def sizeof_dng_window_api_v1 : Nat := 56

/-- Compiled `size_of::<dng_module_api_v1>()`:
8 (header) + 16 (name view) + 16 (three u32 + padding) + 56 (window) + 8. -/
def sizeof_dng_module_api_v1 : Nat := 104

/-- Compiled `size_of::<NullWindowCtx>()`:
8 (host) + 8 (handle) + 8 (size) + 8 (title) + 8 (title_size + padding). -/
def sizeof_NullWindowCtx : Nat := 40

/-- Compiled `align_of::<NullWindowCtx>()`. -/
def alignof_NullWindowCtx : Nat := 8

/-- Address of the static `b"RustNullWindow"` bytes (some fixed non-null
address; never dereferenced by the model). -/
def module_name_addr : Ptr := 1

/-- One call recorded on the host-allocator ledger. -/
inductive AllocEvent where
  | alloc (ptr size align : Nat)
  | free (ptr size align : Nat)
deriving DecidableEq

/-- Host allocator model: `responses` is the oracle of pointers returned by
successive `alloc` calls (empty oracle → null), `events` the ledger of all
calls made so far. -/
structure Alloc where
  responses : List Ptr
  events : List AllocEvent
deriving DecidableEq

/-- The pointer the next `alloc` call will return. -/
def Alloc.nextPtr (a : Alloc) : Ptr :=
  match a.responses with
  | [] => 0
  | p :: _ => p

/-- Perform one host `alloc(user, size, align)` call: consume the oracle,
record the call. -/
def Alloc.doAlloc (a : Alloc) (size align : Nat) : Ptr × Alloc :=
  match a.responses with
  | [] => (0, { a with events := a.events ++ [AllocEvent.alloc 0 size align] })
  | p :: rest => (p, { responses := rest, events := a.events ++ [AllocEvent.alloc p size align] })

/-- Perform one host `free(user, ptr, size, align)` call: record the call. -/
def Alloc.doFree (a : Alloc) (ptr size align : Nat) : Alloc :=
  { a with events := a.events ++ [AllocEvent.free ptr size align] }

/-- `catch_unwind_status`: the pure model cannot panic, so the boundary guard
is the identity on results. -/
def catch_unwind_status {α : Type} (f : α) : α := f

/-- `free_title` (lib.rs:107-115): if a title buffer is held, free it through
the host's `free` (when present) and null the fields. -/
def free_title (ctx : NullWindowCtx) (a : Alloc) : NullWindowCtx × Alloc :=
  if ctx.title ≠ 0 then
    let a2 := if ctx.host.free_present then a.doFree ctx.title ctx.title_size 1 else a
    ({ ctx with title := 0, title_size := 0 }, a2)
  else
    (ctx, a)

/-- `alloc_copy_title` (lib.rs:117-137): allocate a copy of `title` through
the host allocator and install it in the context. -/
def alloc_copy_title (ctx : NullWindowCtx) (title : dng_str_view_v1) (a : Alloc) :
    dng_status_v1 × NullWindowCtx × Alloc :=
  if title.size = 0 then
    (DNG_STATUS_OK, ctx, a)
  else if title.data = 0 then
    (DNG_STATUS_INVALID_ARG, ctx, a)
  else if ctx.host.alloc_present = false then
    (DNG_STATUS_INVALID_ARG, ctx, a)
  else
    let r := a.doAlloc title.size 1
    if r.1 = 0 then
      (DNG_STATUS_OUT_OF_MEMORY, ctx, r.2)
    else
      (DNG_STATUS_OK, { ctx with title := r.1, title_size := title.size }, r.2)

/-- `window_create` (lib.rs:146-173).  `desc = none` models a null `desc`
pointer; the third component of the result is the value written to
`*out_handle` (`none` = slot not written). -/
def window_create (raw_ctx : Ptr) (ctx : NullWindowCtx) (desc : Option dng_window_desc_v1)
    (out_handle : Ptr) (a : Alloc) : dng_status_v1 × NullWindowCtx × Option Nat × Alloc :=
  catch_unwind_status <|
  if raw_ctx = 0 ∨ desc = none ∨ out_handle = 0 then
    (DNG_STATUS_INVALID_ARG, ctx, none, a)
  else
    match desc with
    | none => (DNG_STATUS_INVALID_ARG, ctx, none, a)
    | some d =>
      if ctx.handle ≠ 0 then
        (DNG_STATUS_FAIL, ctx, none, a)
      else if d.flags ≠ 0 then
        (DNG_STATUS_INVALID_ARG, ctx, none, a)
      else if d.title.size > 0 ∧ d.title.data = 0 then
        (DNG_STATUS_INVALID_ARG, ctx, none, a)
      else
        let ctx1 := { ctx with size := { width := d.width, height := d.height } }
        let fr := free_title ctx1 a
        let ti := alloc_copy_title fr.1 d.title fr.2
        if ti.1 ≠ DNG_STATUS_OK then
          (ti.1, ti.2.1, none, ti.2.2)
        else
          let ctx2 := { ti.2.1 with handle := 1 }
          (DNG_STATUS_OK, ctx2, some ctx2.handle, ti.2.2)

/-- `window_destroy` (lib.rs:175-190). -/
def window_destroy (raw_ctx : Ptr) (ctx : NullWindowCtx) (handle : Nat) (a : Alloc) :
    dng_status_v1 × NullWindowCtx × Alloc :=
  catch_unwind_status <|
  if raw_ctx = 0 ∨ handle = 0 then
    (DNG_STATUS_INVALID_ARG, ctx, a)
  else if ctx.handle ≠ handle then
    (DNG_STATUS_INVALID_ARG, ctx, a)
  else
    let fr := free_title ctx a
    (DNG_STATUS_OK, { fr.1 with handle := 0, size := { width := 0, height := 0 } }, fr.2)

/-- `window_poll` (lib.rs:192-199): validates the context pointer only; the
context is returned unchanged. -/
def window_poll (raw_ctx : Ptr) (ctx : NullWindowCtx) : dng_status_v1 × NullWindowCtx :=
  catch_unwind_status <|
  if raw_ctx = 0 then
    (DNG_STATUS_INVALID_ARG, ctx)
  else
    (DNG_STATUS_OK, ctx)

/-- `window_get_size` (lib.rs:201-213).  Read-only on the context (returned
unchanged); the third component is the value written to `*out_size`
(`none` = slot not written). -/
def window_get_size (raw_ctx : Ptr) (ctx : NullWindowCtx) (handle : Nat) (out_size : Ptr) :
    dng_status_v1 × NullWindowCtx × Option dng_window_size_v1 :=
  catch_unwind_status <|
  if raw_ctx = 0 ∨ out_size = 0 ∨ handle = 0 then
    (DNG_STATUS_INVALID_ARG, ctx, none)
  else if ctx.handle ≠ handle then
    (DNG_STATUS_INVALID_ARG, ctx, none)
  else
    (DNG_STATUS_OK, ctx, some ctx.size)

/-- `window_set_title` (lib.rs:215-230). -/
def window_set_title (raw_ctx : Ptr) (ctx : NullWindowCtx) (handle : Nat)
    (title : dng_str_view_v1) (a : Alloc) : dng_status_v1 × NullWindowCtx × Alloc :=
  catch_unwind_status <|
  if raw_ctx = 0 ∨ handle = 0 then
    (DNG_STATUS_INVALID_ARG, ctx, a)
  else if ctx.handle ≠ handle then
    (DNG_STATUS_INVALID_ARG, ctx, a)
  else if title.size > 0 ∧ title.data = 0 then
    (DNG_STATUS_INVALID_ARG, ctx, a)
  else
    let fr := free_title ctx a
    alloc_copy_title fr.1 title fr.2

/-- `module_shutdown` (lib.rs:232-246).  `host` is the host table the pointer
argument (`host_ptr`) points at; the context block at `raw_ctx` is freed with
its compiled size/alignment. -/
def module_shutdown (raw_ctx : Ptr) (ctx : NullWindowCtx) (host_ptr : Ptr)
    (host : dng_host_api_v1) (a : Alloc) : dng_status_v1 × NullWindowCtx × Alloc :=
  catch_unwind_status <|
  if raw_ctx = 0 ∨ host_ptr = 0 then
    (DNG_STATUS_INVALID_ARG, ctx, a)
  else
    let fr := free_title ctx a
    if host.free_present = false then
      (DNG_STATUS_INVALID_ARG, fr.1, fr.2)
    else
      (DNG_STATUS_OK, fr.1, fr.2.doFree raw_ctx sizeof_NullWindowCtx alignof_NullWindowCtx)

/-- `dngModuleGetApi_v1` (lib.rs:249-296).  The second component is the value
written to `*out_api` (`none` = slot not written); the third is the freshly
allocated context (its address and initial value), when one was created. -/
def dngModuleGetApi_v1 (host_ptr : Ptr) (host : dng_host_api_v1) (out_api : Ptr) (a : Alloc) :
    dng_status_v1 × Option dng_module_api_v1 × Option (Ptr × NullWindowCtx) × Alloc :=
  catch_unwind_status <|
  if host_ptr = 0 ∨ out_api = 0 then
    (DNG_STATUS_INVALID_ARG, none, none, a)
  else if host.header.struct_size ≠ sizeof_dng_host_api_v1 ∨
      host.header.abi_version ≠ DNG_ABI_VERSION_V1 then
    (DNG_STATUS_UNSUPPORTED, none, none, a)
  else if host.alloc_present = false ∨ host.free_present = false then
    (DNG_STATUS_INVALID_ARG, none, none, a)
  else
    let r := a.doAlloc sizeof_NullWindowCtx alignof_NullWindowCtx
    if r.1 = 0 then
      (DNG_STATUS_OUT_OF_MEMORY, none, none, r.2)
    else
      let ctx : NullWindowCtx :=
        { host := host, handle := 0, size := { width := 0, height := 0 },
          title := 0, title_size := 0 }
      let api : dng_module_api_v1 :=
        { header := { struct_size := sizeof_dng_module_api_v1, abi_version := DNG_ABI_VERSION_V1 },
          module_name := { data := module_name_addr, size := 14 },
          module_version_major := 1,
          module_version_minor := 0,
          module_version_patch := 0,
          window :=
            { header := { struct_size := sizeof_dng_window_api_v1, abi_version := DNG_ABI_VERSION_V1 },
              ctx := r.1,
              create_present := true,
              destroy_present := true,
              poll_present := true,
              get_size_present := true,
              set_title_present := true },
          shutdown_present := true }
      (DNG_STATUS_OK, some api, some (r.1, ctx), r.2)

/-! ### Ledger accounting -/

/-- Is this event an `alloc` call? -/
def AllocEvent.isAlloc : AllocEvent → Bool
  | AllocEvent.alloc _ _ _ => true
  | AllocEvent.free _ _ _ => false

/-- Is this event a `free` call? -/
def AllocEvent.isFree : AllocEvent → Bool
  | AllocEvent.alloc _ _ _ => false
  | AllocEvent.free _ _ _ => true

/-- Remove the first occurrence of `y` from the list, or `none` if absent. -/
def removeFirst : List (Nat × Nat × Nat) → Nat × Nat × Nat → Option (List (Nat × Nat × Nat))
  | [], _ => none
  | x :: xs, y => if x = y then some xs else Option.map (fun l => x :: l) (removeFirst xs y)

/-- Allocator-ledger check: replay the events against a multiset `live` of
outstanding `(ptr, size, align)` blocks.  Every `free` must exactly match an
outstanding `alloc` (same pointer, size and alignment) and consume it; a null
`alloc` result adds nothing; at the end nothing may remain outstanding. -/
def ledgerOk : List (Nat × Nat × Nat) → List AllocEvent → Bool
  | live, [] => live.isEmpty
  | live, AllocEvent.alloc p s al :: rest =>
      if p = 0 then ledgerOk live rest else ledgerOk ((p, s, al) :: live) rest
  | live, AllocEvent.free p s al :: rest =>
      match removeFirst live (p, s, al) with
      | some live2 => ledgerOk live2 rest
      | none => false

/-! ### Sample concrete values (used by witnesses and counterexamples) -/

/-- A well-formed host table: correct header, alloc and free present. -/
def validHost : dng_host_api_v1 :=
  { header := { struct_size := sizeof_dng_host_api_v1, abi_version := DNG_ABI_VERSION_V1 },
    user := 0, log_present := false, alloc_present := true, free_present := true }

/-- A fresh context as the entry point initializes it, bound to `validHost`. -/
def freshCtx : NullWindowCtx :=
  { host := validHost, handle := 0, size := { width := 0, height := 0 },
    title := 0, title_size := 0 }

/-- An allocator with an empty oracle and an empty ledger. -/
def emptyAlloc : Alloc := { responses := [], events := [] }

/-! ### Helper lemmas about the title-buffer routines -/

theorem free_title_handle (ctx : NullWindowCtx) (a : Alloc) :
    (free_title ctx a).1.handle = ctx.handle := by
  unfold free_title
  split <;> rfl

theorem free_title_size_field (ctx : NullWindowCtx) (a : Alloc) :
    (free_title ctx a).1.size = ctx.size := by
  unfold free_title
  split <;> rfl

theorem free_title_host (ctx : NullWindowCtx) (a : Alloc) :
    (free_title ctx a).1.host = ctx.host := by
  unfold free_title
  split <;> rfl

theorem free_title_title (ctx : NullWindowCtx) (a : Alloc) :
    (free_title ctx a).1.title = 0 := by
  unfold free_title
  split
  · rfl
  · next h => simpa using h

theorem free_title_title_size (ctx : NullWindowCtx) (a : Alloc)
    (h : ctx.title = 0 → ctx.title_size = 0) :
    (free_title ctx a).1.title_size = 0 := by
  unfold free_title
  split
  · rfl
  · next h0 => simpa using h (by simpa using h0)

theorem free_title_of_no_title (ctx : NullWindowCtx) (a : Alloc) (h : ctx.title = 0) :
    free_title ctx a = (ctx, a) := by
  unfold free_title
  simp [h]

theorem alloc_copy_title_handle (ctx : NullWindowCtx) (t : dng_str_view_v1) (a : Alloc) :
    (alloc_copy_title ctx t a).2.1.handle = ctx.handle := by
  by_cases h1 : t.size = 0 <;>
    by_cases h2 : t.data = 0 <;>
      by_cases h3 : ctx.host.alloc_present = false <;>
        by_cases h4 : (a.doAlloc t.size 1).1 = 0 <;>
          simp [alloc_copy_title, h1, h2, h3, h4]

theorem alloc_copy_title_size_field (ctx : NullWindowCtx) (t : dng_str_view_v1) (a : Alloc) :
    (alloc_copy_title ctx t a).2.1.size = ctx.size := by
  by_cases h1 : t.size = 0 <;>
    by_cases h2 : t.data = 0 <;>
      by_cases h3 : ctx.host.alloc_present = false <;>
        by_cases h4 : (a.doAlloc t.size 1).1 = 0 <;>
          simp [alloc_copy_title, h1, h2, h3, h4]

theorem alloc_copy_title_host (ctx : NullWindowCtx) (t : dng_str_view_v1) (a : Alloc) :
    (alloc_copy_title ctx t a).2.1.host = ctx.host := by
  by_cases h1 : t.size = 0 <;>
    by_cases h2 : t.data = 0 <;>
      by_cases h3 : ctx.host.alloc_present = false <;>
        by_cases h4 : (a.doAlloc t.size 1).1 = 0 <;>
          simp [alloc_copy_title, h1, h2, h3, h4]

/-- On every non-OK exit, `alloc_copy_title` leaves the context untouched. -/
theorem alloc_copy_title_fail_ctx (ctx : NullWindowCtx) (t : dng_str_view_v1) (a : Alloc)
    (h : (alloc_copy_title ctx t a).1 ≠ DNG_STATUS_OK) :
    (alloc_copy_title ctx t a).2.1 = ctx := by
  by_cases h1 : t.size = 0
  · simp [alloc_copy_title, h1] at h
  · by_cases h2 : t.data = 0
    · simp [alloc_copy_title, h1, h2]
    · by_cases h3 : ctx.host.alloc_present = false
      · simp [alloc_copy_title, h1, h2, h3]
      · by_cases h4 : (a.doAlloc t.size 1).1 = 0
        · simp [alloc_copy_title, h1, h2, h3, h4]
        · exfalso
          apply h
          simp [alloc_copy_title, h1, h2, h3, h4]

/-- The title-buffer fields after `alloc_copy_title` on a context with no
title: the pointer is null exactly when the stored size is zero. -/
theorem alloc_copy_title_title_iff (ctx : NullWindowCtx) (t : dng_str_view_v1) (a : Alloc)
    (h0 : ctx.title = 0) (hs0 : ctx.title_size = 0) :
    ((alloc_copy_title ctx t a).2.1.title = 0 ↔ (alloc_copy_title ctx t a).2.1.title_size = 0) := by
  by_cases h1 : t.size = 0
  · simp [alloc_copy_title, h1, h0, hs0]
  · by_cases h2 : t.data = 0
    · simp [alloc_copy_title, h1, h2, h0, hs0]
    · by_cases h3 : ctx.host.alloc_present = false
      · simp [alloc_copy_title, h1, h2, h3, h0, hs0]
      · by_cases h4 : (a.doAlloc t.size 1).1 = 0
        · simp [alloc_copy_title, h1, h2, h3, h4, h0, hs0]
        · simp [alloc_copy_title, h1, h2, h3, h4, h0, hs0]

theorem doAlloc_fst (a : Alloc) (s al : Nat) : (a.doAlloc s al).1 = a.nextPtr := by
  rcases a with ⟨resp, evs⟩
  cases resp <;> rfl

/-- A context with a created window (handle 1), bound to `validHost`. -/
def createdCtx : NullWindowCtx :=
  { host := validHost, handle := 1, size := { width := 640, height := 480 },
    title := 0, title_size := 0 }

/-- C8: calling `window_destroy` with handle value 0 (a window that was never
created) on a non-null context returns InvalidArgument, performs no host
allocator call (the ledger is unchanged) and leaves the context unchanged. -/
theorem destroy_never_created_invalid_arg (raw_ctx : Ptr) (ctx : NullWindowCtx) (a : Alloc)
    (hc : raw_ctx ≠ 0) :
    window_destroy raw_ctx ctx 0 a = (DNG_STATUS_INVALID_ARG, ctx, a) := by
  simp [window_destroy, catch_unwind_status]

theorem destroy_never_created_invalid_arg_witness :
    window_destroy 5 freshCtx 0 emptyAlloc = (DNG_STATUS_INVALID_ARG, freshCtx, emptyAlloc) :=
  destroy_never_created_invalid_arg 5 freshCtx emptyAlloc (by decide)

/-- C2: for non-null host and output pointers, a host header whose
`abi_version` differs from 1 (or whose `struct_size` differs from the
module's compiled host-table size) makes the entry point return Unsupported,
write nothing to the output slot and make no host allocator call. -/
theorem entry_version_gate (host_ptr out_api : Ptr) (host : dng_host_api_v1) (a : Alloc)
    (hh : host_ptr ≠ 0) (ho : out_api ≠ 0)
    (hv : host.header.abi_version ≠ DNG_ABI_VERSION_V1 ∨
          host.header.struct_size ≠ sizeof_dng_host_api_v1) :
    dngModuleGetApi_v1 host_ptr host out_api a = (DNG_STATUS_UNSUPPORTED, none, none, a) := by
  rcases hv with hv | hv <;>
    simp [dngModuleGetApi_v1, catch_unwind_status, hh, ho, hv]

theorem entry_version_gate_witness :
    dngModuleGetApi_v1 1
      { header := { struct_size := sizeof_dng_host_api_v1, abi_version := 2 },
        user := 0, log_present := false, alloc_present := true, free_present := true }
      1 emptyAlloc = (DNG_STATUS_UNSUPPORTED, none, none, emptyAlloc) :=
  entry_version_gate 1 1 _ emptyAlloc (by decide) (by decide) (Or.inl (by decide))

/-- C5: a second `window_create` on a context whose handle is already nonzero
returns Fail, leaves the context (handle, size, title) unchanged, does not
write the output handle slot and makes no allocator call. -/
theorem create_twice_fails (raw_ctx out_handle : Ptr) (ctx : NullWindowCtx)
    (d : dng_window_desc_v1) (a : Alloc)
    (hc : raw_ctx ≠ 0) (ho : out_handle ≠ 0) (hh : ctx.handle ≠ 0) :
    window_create raw_ctx ctx (some d) out_handle a = (DNG_STATUS_FAIL, ctx, none, a) := by
  simp [window_create, catch_unwind_status, hc, ho, hh]

theorem create_twice_fails_witness :
    window_create 5 createdCtx
      (some { width := 3, height := 4, title := { data := 0, size := 0 }, flags := 0 })
      6 emptyAlloc = (DNG_STATUS_FAIL, createdCtx, none, emptyAlloc) :=
  create_twice_fails 5 6 createdCtx _ emptyAlloc (by decide) (by decide) (by decide)

/-- C10: when `window_create` fails with OutOfMemory on the title allocation
(context Absent with no title buffer, valid desc, non-empty title, allocator
returning null), the handle and title fields are unchanged but the stored
width/height have already been overwritten with the requested desc values,
and the output handle slot is not written. -/
theorem create_oom_overwrites_size (raw_ctx out_handle : Ptr) (ctx : NullWindowCtx)
    (d : dng_window_desc_v1) (a : Alloc)
    (hc : raw_ctx ≠ 0) (ho : out_handle ≠ 0) (hh : ctx.handle = 0)
    (ht : ctx.title = 0) (hts : ctx.title_size = 0)
    (hf : d.flags = 0) (hs : 0 < d.title.size) (hd : d.title.data ≠ 0)
    (hal : ctx.host.alloc_present = true) (hnull : a.nextPtr = 0) :
    (window_create raw_ctx ctx (some d) out_handle a).1 = DNG_STATUS_OUT_OF_MEMORY ∧
    (window_create raw_ctx ctx (some d) out_handle a).2.1 =
      { ctx with size := { width := d.width, height := d.height } } ∧
    (window_create raw_ctx ctx (some d) out_handle a).2.2.1 = none := by
  have hs0 : ¬d.title.size = 0 := by omega
  simp [window_create, catch_unwind_status, hc, ho, hh, hf, hd, free_title, ht,
    alloc_copy_title, hs0, hal, doAlloc_fst, hnull,
    DNG_STATUS_OUT_OF_MEMORY, DNG_STATUS_OK]

theorem create_oom_overwrites_size_witness :
    (window_create 5 freshCtx
       (some { width := 7, height := 8, title := { data := 100, size := 3 }, flags := 0 })
       6 emptyAlloc).1 = DNG_STATUS_OUT_OF_MEMORY ∧
    (window_create 5 freshCtx
       (some { width := 7, height := 8, title := { data := 100, size := 3 }, flags := 0 })
       6 emptyAlloc).2.1 = { freshCtx with size := { width := 7, height := 8 } } ∧
    (window_create 5 freshCtx
       (some { width := 7, height := 8, title := { data := 100, size := 3 }, flags := 0 })
       6 emptyAlloc).2.2.1 = none :=
  create_oom_overwrites_size 5 6 freshCtx _ emptyAlloc (by decide) (by decide) (by decide)
    (by decide) (by decide) (by decide) (by decide) (by decide) (by decide) (by decide)

/-- C1: for non-null pointers, a host table with correct header
(compiled host-table size, ABI version 1) and both alloc and free present,
and a host allocator that returns a non-null block for the context
allocation, the entry point returns OK and writes a module table whose own
header and whose nested window table's header carry exactly the module's
compiled struct sizes and ABI version 1. -/
theorem entry_valid_host_ok (host_ptr out_api : Ptr) (host : dng_host_api_v1) (a : Alloc)
    (hh : host_ptr ≠ 0) (ho : out_api ≠ 0)
    (hs : host.header.struct_size = sizeof_dng_host_api_v1)
    (hv : host.header.abi_version = DNG_ABI_VERSION_V1)
    (hal : host.alloc_present = true) (hfr : host.free_present = true)
    (hm : a.nextPtr ≠ 0) :
    (dngModuleGetApi_v1 host_ptr host out_api a).1 = DNG_STATUS_OK ∧
    ∃ api : dng_module_api_v1,
      (dngModuleGetApi_v1 host_ptr host out_api a).2.1 = some api ∧
      api.header.struct_size = sizeof_dng_module_api_v1 ∧
      api.header.abi_version = DNG_ABI_VERSION_V1 ∧
      api.window.header.struct_size = sizeof_dng_window_api_v1 ∧
      api.window.header.abi_version = DNG_ABI_VERSION_V1 := by
  have hm' : ¬(a.doAlloc sizeof_NullWindowCtx alignof_NullWindowCtx).1 = 0 := by
    rw [doAlloc_fst]; exact hm
  simp [dngModuleGetApi_v1, catch_unwind_status, hh, ho, hs, hv, hal, hfr, hm']

theorem entry_valid_host_ok_witness :
    (dngModuleGetApi_v1 1 validHost 1 { responses := [9], events := [] }).1 = DNG_STATUS_OK ∧
    ∃ api : dng_module_api_v1,
      (dngModuleGetApi_v1 1 validHost 1 { responses := [9], events := [] }).2.1 = some api ∧
      api.header.struct_size = sizeof_dng_module_api_v1 ∧
      api.header.abi_version = DNG_ABI_VERSION_V1 ∧
      api.window.header.struct_size = sizeof_dng_window_api_v1 ∧
      api.window.header.abi_version = DNG_ABI_VERSION_V1 :=
  entry_valid_host_ok 1 1 validHost _ (by decide) (by decide) (by decide) (by decide)
    (by decide) (by decide) (by decide)

/-- Inversion of a successful `window_create`: the preconditions that must
have held and the shape of the resulting context and output. -/
theorem window_create_ok (raw_ctx out_handle : Ptr) (ctx ctx2 : NullWindowCtx)
    (d : dng_window_desc_v1) (a a2 : Alloc) (wr : Option Nat)
    (hok : window_create raw_ctx ctx (some d) out_handle a = (DNG_STATUS_OK, ctx2, wr, a2)) :
    raw_ctx ≠ 0 ∧ out_handle ≠ 0 ∧ ctx.handle = 0 ∧ d.flags = 0 ∧
    ctx2.handle = 1 ∧ ctx2.size = { width := d.width, height := d.height } ∧
    ctx2.host = ctx.host ∧ wr = some 1 := by
  simp only [window_create, catch_unwind_status] at hok
  split at hok
  · next hcond =>
    simp [DNG_STATUS_INVALID_ARG, DNG_STATUS_OK, Prod.ext_iff] at hok
  · next hcond =>
    push_neg at hcond
    obtain ⟨hrc, -, hoh⟩ := hcond
    split at hok
    · simp [DNG_STATUS_FAIL, DNG_STATUS_OK, Prod.ext_iff] at hok
    · split at hok
      · simp [DNG_STATUS_INVALID_ARG, DNG_STATUS_OK, Prod.ext_iff] at hok
      · split at hok
        · simp [DNG_STATUS_INVALID_ARG, DNG_STATUS_OK, Prod.ext_iff] at hok
        · next hh0 hfl hti =>
          split at hok
          · next hne =>
            rw [Prod.ext_iff] at hok
            exact absurd hok.1 hne
          · next hne =>
            simp only [Prod.mk.injEq] at hok
            obtain ⟨-, hctx2, hwr, -⟩ := hok
            subst hctx2
            refine ⟨hrc, hoh, by omega, by omega, rfl, ?_, ?_, hwr.symm⟩
            · show (alloc_copy_title (free_title _ a).1 d.title (free_title _ a).2).2.1.size = _
              rw [alloc_copy_title_size_field, free_title_size_field]
            · show (alloc_copy_title (free_title _ a).1 d.title (free_title _ a).2).2.1.host = _
              rw [alloc_copy_title_host, free_title_host]

/-- C7: after a successful `window_create` with desc `{width := w, height := h}`
that returned handle `k`, `window_get_size` with handle `k` and a non-null
output pointer returns OK and writes exactly `{width := w, height := h}`. -/
theorem create_then_get_size (raw_ctx out_handle out_size : Ptr) (ctx ctx2 : NullWindowCtx)
    (w h k : Nat) (t : dng_str_view_v1) (fl : Nat) (a a2 : Alloc) (wr : Option Nat)
    (hos : out_size ≠ 0) (hh0 : ctx.handle = 0)
    (hok : window_create raw_ctx ctx (some { width := w, height := h, title := t, flags := fl })
             out_handle a = (DNG_STATUS_OK, ctx2, wr, a2))
    (hwr : wr = some k) :
    window_get_size raw_ctx ctx2 k out_size =
      (DNG_STATUS_OK, ctx2, some { width := w, height := h }) := by
  obtain ⟨hrc, -, -, -, hh1, hsz, -, hwr1⟩ :=
    window_create_ok raw_ctx out_handle ctx ctx2 _ a a2 wr hok
  have hk : k = 1 := by
    rw [hwr1] at hwr
    exact (Option.some.inj hwr).symm
  subst hk
  simp [window_get_size, catch_unwind_status, hrc, hos, hh1, hsz]

theorem create_then_get_size_witness :
    window_get_size 5
      (window_create 5 freshCtx
         (some { width := 7, height := 8, title := { data := 0, size := 0 }, flags := 0 })
         6 emptyAlloc).2.1
      1 9 =
      (DNG_STATUS_OK,
       (window_create 5 freshCtx
          (some { width := 7, height := 8, title := { data := 0, size := 0 }, flags := 0 })
          6 emptyAlloc).2.1,
       some { width := 7, height := 8 }) :=
  create_then_get_size 5 6 9
    freshCtx
    (window_create 5 freshCtx
       (some { width := 7, height := 8, title := { data := 0, size := 0 }, flags := 0 })
       6 emptyAlloc).2.1
    7 8 1 { data := 0, size := 0 } 0 emptyAlloc
    (window_create 5 freshCtx
       (some { width := 7, height := 8, title := { data := 0, size := 0 }, flags := 0 })
       6 emptyAlloc).2.2.2
    (window_create 5 freshCtx
       (some { width := 7, height := 8, title := { data := 0, size := 0 }, flags := 0 })
       6 emptyAlloc).2.2.1
    (by decide) (by decide) (by decide) (by decide)

theorem doAlloc_events (a : Alloc) (s al : Nat) :
    (a.doAlloc s al).2.events = a.events ++ [AllocEvent.alloc a.nextPtr s al] := by
  rcases a with ⟨resp, evs⟩
  cases resp <;> rfl

theorem free_title_responses (ctx : NullWindowCtx) (a : Alloc) :
    (free_title ctx a).2.responses = a.responses := by
  by_cases h1 : ctx.title = 0 <;>
    by_cases h2 : ctx.host.free_present <;>
      simp [free_title, Alloc.doFree, h1, h2]

theorem nextPtr_congr (a b : Alloc) (h : a.responses = b.responses) : a.nextPtr = b.nextPtr := by
  unfold Alloc.nextPtr
  rw [h]

theorem free_title_events (ctx : NullWindowCtx) (a : Alloc) (h : ctx.title ≠ 0)
    (hf : ctx.host.free_present = true) :
    (free_title ctx a).2.events = a.events ++ [AllocEvent.free ctx.title ctx.title_size 1] := by
  simp [free_title, Alloc.doFree, h, hf]

/-- C4: when the replacement allocation fails (host allocator returns null),
`window_set_title` on a created window reports OutOfMemory and leaves the
context with no title buffer, the previous buffer having been freed with its
original size; likewise a failed title allocation in `window_create` reports
OutOfMemory and leaves the window Absent (handle still 0). -/
theorem title_alloc_failure_rollback :
    (∀ (raw_ctx : Ptr) (ctx : NullWindowCtx) (handle : Nat) (t : dng_str_view_v1) (a : Alloc),
      raw_ctx ≠ 0 → ctx.handle = handle → handle ≠ 0 →
      (ctx.title = 0 → ctx.title_size = 0) →
      0 < t.size → t.data ≠ 0 →
      ctx.host.alloc_present = true → ctx.host.free_present = true →
      a.nextPtr = 0 →
      (window_set_title raw_ctx ctx handle t a).1 = DNG_STATUS_OUT_OF_MEMORY ∧
      (window_set_title raw_ctx ctx handle t a).2.1.title = 0 ∧
      (window_set_title raw_ctx ctx handle t a).2.1.title_size = 0 ∧
      (ctx.title ≠ 0 →
        AllocEvent.free ctx.title ctx.title_size 1 ∈
          (window_set_title raw_ctx ctx handle t a).2.2.events)) ∧
    (∀ (raw_ctx out_handle : Ptr) (ctx : NullWindowCtx) (d : dng_window_desc_v1) (a : Alloc),
      raw_ctx ≠ 0 → out_handle ≠ 0 → ctx.handle = 0 →
      d.flags = 0 → 0 < d.title.size → d.title.data ≠ 0 →
      ctx.host.alloc_present = true → a.nextPtr = 0 →
      (window_create raw_ctx ctx (some d) out_handle a).1 = DNG_STATUS_OUT_OF_MEMORY ∧
      (window_create raw_ctx ctx (some d) out_handle a).2.1.handle = 0) := by
  constructor
  · intro raw_ctx ctx handle t a hc hh hhn hinv hs hd hal hfp hnull
    have hh2 : ¬ctx.handle ≠ handle := by
      simp [hh]
    have hsz : ¬t.size = 0 := by omega
    have hzero : ((free_title ctx a).2.doAlloc t.size 1).1 = 0 := by
      rw [doAlloc_fst, nextPtr_congr _ a (free_title_responses ctx a)]
      exact hnull
    have hred : window_set_title raw_ctx ctx handle t a =
        (DNG_STATUS_OUT_OF_MEMORY, (free_title ctx a).1, ((free_title ctx a).2.doAlloc t.size 1).2) := by
      simp [window_set_title, catch_unwind_status, hc, hhn, hh2, hd,
        alloc_copy_title, hsz, free_title_host, hal, hzero]
    rw [hred]
    refine ⟨rfl, free_title_title ctx a, free_title_title_size ctx a hinv, ?_⟩
    intro hnt
    simp [doAlloc_events, free_title_events ctx a hnt hfp]
  · intro raw_ctx out_handle ctx d a hc ho hh0 hf hs hd hal hnull
    have hsz : ¬d.title.size = 0 := by omega
    have hzero : ∀ c : NullWindowCtx, ((free_title c a).2.doAlloc d.title.size 1).1 = 0 := by
      intro c
      rw [doAlloc_fst, nextPtr_congr _ a (free_title_responses c a)]
      exact hnull
    constructor
    · simp [window_create, catch_unwind_status, hc, ho, hh0, hf, hd,
        alloc_copy_title, hsz, free_title_host, hal, hzero,
        DNG_STATUS_OUT_OF_MEMORY, DNG_STATUS_OK]
    · simp [window_create, catch_unwind_status, hc, ho, hh0, hf, hd,
        alloc_copy_title, hsz, free_title_host, hal, hzero, free_title_handle,
        DNG_STATUS_OUT_OF_MEMORY, DNG_STATUS_OK]

theorem title_alloc_failure_rollback_witness :
    (window_set_title 5
       { host := validHost, handle := 1, size := { width := 640, height := 480 },
         title := 77, title_size := 4 }
       1 { data := 100, size := 3 } emptyAlloc).1 = DNG_STATUS_OUT_OF_MEMORY ∧
    (window_set_title 5
       { host := validHost, handle := 1, size := { width := 640, height := 480 },
         title := 77, title_size := 4 }
       1 { data := 100, size := 3 } emptyAlloc).2.1.title = 0 ∧
    (window_set_title 5
       { host := validHost, handle := 1, size := { width := 640, height := 480 },
         title := 77, title_size := 4 }
       1 { data := 100, size := 3 } emptyAlloc).2.1.title_size = 0 ∧
    ((77 : Nat) ≠ 0 →
      AllocEvent.free 77 4 1 ∈
        (window_set_title 5
           { host := validHost, handle := 1, size := { width := 640, height := 480 },
             title := 77, title_size := 4 }
           1 { data := 100, size := 3 } emptyAlloc).2.2.events) :=
  (title_alloc_failure_rollback.1 5
    { host := validHost, handle := 1, size := { width := 640, height := 480 },
      title := 77, title_size := 4 }
    1 { data := 100, size := 3 } emptyAlloc
    (by decide) (by decide) (by decide) (by decide) (by decide) (by decide)
    (by decide) (by decide) (by decide))

theorem poll_ctx (raw_ctx : Ptr) (ctx : NullWindowCtx) : (window_poll raw_ctx ctx).2 = ctx := by
  unfold window_poll catch_unwind_status
  split <;> rfl

theorem get_size_ctx (raw_ctx : Ptr) (ctx : NullWindowCtx) (handle : Nat) (out_size : Ptr) :
    (window_get_size raw_ctx ctx handle out_size).2.1 = ctx := by
  unfold window_get_size catch_unwind_status
  split
  · rfl
  · split <;> rfl

/-- Reachable-context invariant: the title pointer is null exactly when the
stored title size is zero, and an Absent window (handle 0) holds no title
buffer. -/
def CtxInv (ctx : NullWindowCtx) : Prop :=
  (ctx.title = 0 ↔ ctx.title_size = 0) ∧ (ctx.handle = 0 → ctx.title = 0)

/-- Releasing then re-allocating the title buffer keeps the title fields
consistent, preserves the handle, and on failure leaves no title buffer. -/
theorem title_replace_inv (c : NullWindowCtx) (t : dng_str_view_v1) (a : Alloc)
    (h0 : c.title = 0 → c.title_size = 0) :
    ((alloc_copy_title (free_title c a).1 t (free_title c a).2).2.1.title = 0 ↔
     (alloc_copy_title (free_title c a).1 t (free_title c a).2).2.1.title_size = 0) ∧
    (alloc_copy_title (free_title c a).1 t (free_title c a).2).2.1.handle = c.handle ∧
    ((alloc_copy_title (free_title c a).1 t (free_title c a).2).1 ≠ DNG_STATUS_OK →
     (alloc_copy_title (free_title c a).1 t (free_title c a).2).2.1.title = 0) := by
  have ht : (free_title c a).1.title = 0 := free_title_title c a
  have hts : (free_title c a).1.title_size = 0 := free_title_title_size c a h0
  refine ⟨alloc_copy_title_title_iff _ _ _ ht hts, ?_, ?_⟩
  · rw [alloc_copy_title_handle, free_title_handle]
  · intro hne
    rw [alloc_copy_title_fail_ctx _ _ _ hne]
    exact ht

/-- C9: the invariant `CtxInv` (title pointer null iff title size zero, and
no title buffer while Absent) holds of the context the entry point creates
and is preserved by every window operation and by shutdown. -/
theorem ctx_invariant_preserved :
    (∀ (host_ptr : Ptr) (host : dng_host_api_v1) (out_api : Ptr) (a : Alloc)
       (p : Ptr) (ctx0 : NullWindowCtx),
       (dngModuleGetApi_v1 host_ptr host out_api a).2.2.1 = some (p, ctx0) → CtxInv ctx0) ∧
    (∀ (raw_ctx : Ptr) (ctx : NullWindowCtx) (desc : Option dng_window_desc_v1)
       (out_handle : Ptr) (a : Alloc), CtxInv ctx →
       CtxInv (window_create raw_ctx ctx desc out_handle a).2.1) ∧
    (∀ (raw_ctx : Ptr) (ctx : NullWindowCtx) (handle : Nat) (a : Alloc), CtxInv ctx →
       CtxInv (window_destroy raw_ctx ctx handle a).2.1) ∧
    (∀ (raw_ctx : Ptr) (ctx : NullWindowCtx), CtxInv ctx →
       CtxInv (window_poll raw_ctx ctx).2) ∧
    (∀ (raw_ctx : Ptr) (ctx : NullWindowCtx) (handle : Nat) (out_size : Ptr), CtxInv ctx →
       CtxInv (window_get_size raw_ctx ctx handle out_size).2.1) ∧
    (∀ (raw_ctx : Ptr) (ctx : NullWindowCtx) (handle : Nat) (t : dng_str_view_v1) (a : Alloc),
       CtxInv ctx → CtxInv (window_set_title raw_ctx ctx handle t a).2.1) ∧
    (∀ (raw_ctx : Ptr) (ctx : NullWindowCtx) (host_ptr : Ptr) (host : dng_host_api_v1)
       (a : Alloc), CtxInv ctx → CtxInv (module_shutdown raw_ctx ctx host_ptr host a).2.1) := by
  refine ⟨?_, ?_, ?_, ?_, ?_, ?_, ?_⟩
  · intro host_ptr host out_api a p ctx0 hsome
    by_cases h1 : host_ptr = 0 ∨ out_api = 0
    · simp [dngModuleGetApi_v1, catch_unwind_status, h1] at hsome
    · by_cases h2 : host.header.struct_size ≠ sizeof_dng_host_api_v1 ∨
          host.header.abi_version ≠ DNG_ABI_VERSION_V1
      · simp [dngModuleGetApi_v1, catch_unwind_status, h1, h2] at hsome
      · by_cases h3 : host.alloc_present = false ∨ host.free_present = false
        · simp [dngModuleGetApi_v1, catch_unwind_status, h1, h2, h3] at hsome
        · by_cases h4 : (a.doAlloc sizeof_NullWindowCtx alignof_NullWindowCtx).1 = 0
          · simp [dngModuleGetApi_v1, catch_unwind_status, h1, h2, h3, h4] at hsome
          · simp [dngModuleGetApi_v1, catch_unwind_status, h1, h2, h3, h4] at hsome
            obtain ⟨-, h5⟩ := hsome
            rw [← h5]
            exact ⟨by simp, by simp⟩
  · intro raw_ctx ctx desc out_handle a hInv
    rcases desc with _ | d
    · simpa [window_create, catch_unwind_status] using hInv
    · by_cases h1 : raw_ctx = 0 ∨ out_handle = 0
      · rcases h1 with h1 | h1 <;> simpa [window_create, catch_unwind_status, h1] using hInv
      · push_neg at h1
        have hnc : ¬(raw_ctx = 0 ∨ (some d : Option dng_window_desc_v1) = none ∨
            out_handle = 0) := by
          simp [h1.1, h1.2]
        unfold window_create catch_unwind_status
        rw [if_neg hnc]
        dsimp only
        by_cases h2 : ctx.handle ≠ 0
        · rw [if_pos h2]
          exact hInv
        · rw [if_neg h2]
          by_cases h3 : d.flags ≠ 0
          · rw [if_pos h3]
            exact hInv
          · rw [if_neg h3]
            by_cases h4 : d.title.size > 0 ∧ d.title.data = 0
            · rw [if_pos h4]
              exact hInv
            · rw [if_neg h4]
              have core := title_replace_inv
                { ctx with size := { width := d.width, height := d.height } } d.title a
                (fun h => hInv.1.mp h)
              split
              · next hne => exact ⟨core.1, fun _ => core.2.2 hne⟩
              · exact ⟨core.1, fun hctr => absurd hctr one_ne_zero⟩
  · intro raw_ctx ctx handle a hInv
    by_cases h1 : raw_ctx = 0 ∨ handle = 0
    · rcases h1 with h1 | h1 <;> simpa [window_destroy, catch_unwind_status, h1] using hInv
    · push_neg at h1
      have hnc : ¬(raw_ctx = 0 ∨ handle = 0) := by simp [h1.1, h1.2]
      by_cases h2 : ctx.handle ≠ handle
      · simpa [window_destroy, catch_unwind_status, hnc, h2] using hInv
      · simp only [window_destroy, catch_unwind_status, if_neg hnc, if_neg h2]
        exact ⟨⟨fun _ => free_title_title_size ctx a (fun h => hInv.1.mp h),
                fun _ => free_title_title ctx a⟩,
               fun _ => free_title_title ctx a⟩
  · intro raw_ctx ctx hInv
    rw [poll_ctx]
    exact hInv
  · intro raw_ctx ctx handle out_size hInv
    rw [get_size_ctx]
    exact hInv
  · intro raw_ctx ctx handle t a hInv
    by_cases h1 : raw_ctx = 0 ∨ handle = 0
    · rcases h1 with h1 | h1 <;> simpa [window_set_title, catch_unwind_status, h1] using hInv
    · push_neg at h1
      have hnc : ¬(raw_ctx = 0 ∨ handle = 0) := by simp [h1.1, h1.2]
      by_cases h2 : ctx.handle ≠ handle
      · simpa [window_set_title, catch_unwind_status, hnc, h2] using hInv
      · by_cases h3 : t.size > 0 ∧ t.data = 0
        · simpa [window_set_title, catch_unwind_status, hnc, h2, h3] using hInv
        · have core := title_replace_inv ctx t a (fun h => hInv.1.mp h)
          simp only [window_set_title, catch_unwind_status, if_neg hnc, if_neg h2, if_neg h3]
          refine ⟨core.1, fun h0 => ?_⟩
          rw [core.2.1] at h0
          have hh : ctx.handle = handle := by omega
          exact absurd (by omega : handle = 0) h1.2
  · intro raw_ctx ctx host_ptr host a hInv
    by_cases h1 : raw_ctx = 0 ∨ host_ptr = 0
    · rcases h1 with h1 | h1 <;> simpa [module_shutdown, catch_unwind_status, h1] using hInv
    · have hnc : ¬(raw_ctx = 0 ∨ host_ptr = 0) := h1
      simp only [module_shutdown, catch_unwind_status, if_neg hnc]
      split <;>
        exact ⟨⟨fun _ => free_title_title_size ctx a (fun h => hInv.1.mp h),
                fun _ => free_title_title ctx a⟩,
               fun _ => free_title_title ctx a⟩

theorem ctx_invariant_preserved_witness :
    CtxInv (window_create 5 freshCtx none 6 emptyAlloc).2.1 :=
  ctx_invariant_preserved.2.1 5 freshCtx none 6 emptyAlloc
    (by constructor <;> simp [freshCtx])

/-- A host table whose `free` function pointer is absent. -/
def hostNoFree : dng_host_api_v1 :=
  { header := { struct_size := sizeof_dng_host_api_v1, abi_version := DNG_ABI_VERSION_V1 },
    user := 0, log_present := false, alloc_present := true, free_present := false }

/-- A created context currently holding a title buffer. -/
def titledCtx : NullWindowCtx :=
  { host := validHost, handle := 1, size := { width := 640, height := 480 },
    title := 77, title_size := 4 }

/-- C3 counterexample: `module_shutdown` invoked with a host table lacking
`free` returns InvalidArgument, yet the context state has changed — the title
buffer was already released before the check.  This refutes the claim that
every InvalidArgument return leaves the context unchanged. -/
theorem shutdown_invalid_arg_changes_state :
    (module_shutdown 7 titledCtx 9 hostNoFree emptyAlloc).1 = DNG_STATUS_INVALID_ARG ∧
    (module_shutdown 7 titledCtx 9 hostNoFree emptyAlloc).2.1 ≠ titledCtx := by
  decide

theorem alloc_copy_title_no_invalid (c : NullWindowCtx) (t : dng_str_view_v1) (a : Alloc)
    (hmal : ¬(t.size > 0 ∧ t.data = 0)) (hal : c.host.alloc_present = true) :
    (alloc_copy_title c t a).1 ≠ DNG_STATUS_INVALID_ARG := by
  by_cases h1 : t.size = 0
  · simp [alloc_copy_title, h1, DNG_STATUS_OK, DNG_STATUS_INVALID_ARG]
  · have h2 : ¬t.data = 0 := fun hd => hmal ⟨by omega, hd⟩
    by_cases h4 : (a.doAlloc t.size 1).1 = 0 <;>
      simp [alloc_copy_title, h1, h2, hal, h4,
        DNG_STATUS_OUT_OF_MEMORY, DNG_STATUS_OK, DNG_STATUS_INVALID_ARG]

/-- C3 (amended): an InvalidArgument return leaves the context unchanged for
create, destroy, poll and get_size unconditionally (create and set_title
assuming the context's host table provides `alloc`, which the entry point
guarantees), and for shutdown provided the host table passed to it provides
`free` or the context holds no title buffer. -/
theorem invalid_arg_preserves_state :
    (∀ (raw_ctx : Ptr) (ctx : NullWindowCtx) (desc : Option dng_window_desc_v1)
       (out_handle : Ptr) (a : Alloc),
      ctx.host.alloc_present = true →
      (window_create raw_ctx ctx desc out_handle a).1 = DNG_STATUS_INVALID_ARG →
      (window_create raw_ctx ctx desc out_handle a).2.1 = ctx) ∧
    (∀ (raw_ctx : Ptr) (ctx : NullWindowCtx) (handle : Nat) (a : Alloc),
      (window_destroy raw_ctx ctx handle a).1 = DNG_STATUS_INVALID_ARG →
      (window_destroy raw_ctx ctx handle a).2.1 = ctx) ∧
    (∀ (raw_ctx : Ptr) (ctx : NullWindowCtx),
      (window_poll raw_ctx ctx).1 = DNG_STATUS_INVALID_ARG →
      (window_poll raw_ctx ctx).2 = ctx) ∧
    (∀ (raw_ctx : Ptr) (ctx : NullWindowCtx) (handle : Nat) (out_size : Ptr),
      (window_get_size raw_ctx ctx handle out_size).1 = DNG_STATUS_INVALID_ARG →
      (window_get_size raw_ctx ctx handle out_size).2.1 = ctx) ∧
    (∀ (raw_ctx : Ptr) (ctx : NullWindowCtx) (handle : Nat) (t : dng_str_view_v1) (a : Alloc),
      ctx.host.alloc_present = true →
      (window_set_title raw_ctx ctx handle t a).1 = DNG_STATUS_INVALID_ARG →
      (window_set_title raw_ctx ctx handle t a).2.1 = ctx) ∧
    (∀ (raw_ctx : Ptr) (ctx : NullWindowCtx) (host_ptr : Ptr) (host : dng_host_api_v1)
       (a : Alloc),
      (host.free_present = true ∨ ctx.title = 0) →
      (module_shutdown raw_ctx ctx host_ptr host a).1 = DNG_STATUS_INVALID_ARG →
      (module_shutdown raw_ctx ctx host_ptr host a).2.1 = ctx) := by
  refine ⟨?_, ?_, ?_, ?_, ?_, ?_⟩
  · intro raw_ctx ctx desc out_handle a hal hIA
    rcases desc with _ | d
    · simp [window_create, catch_unwind_status]
    · by_cases h1 : raw_ctx = 0 ∨ out_handle = 0
      · rcases h1 with h1 | h1 <;> simp [window_create, catch_unwind_status, h1]
      · push_neg at h1
        have hnc : ¬(raw_ctx = 0 ∨ (some d : Option dng_window_desc_v1) = none ∨
            out_handle = 0) := by
          simp [h1.1, h1.2]
        unfold window_create catch_unwind_status at hIA ⊢
        rw [if_neg hnc] at hIA ⊢
        dsimp only at hIA ⊢
        by_cases h2 : ctx.handle ≠ 0
        · rw [if_pos h2] at hIA
          simp [DNG_STATUS_FAIL, DNG_STATUS_INVALID_ARG] at hIA
        · rw [if_neg h2] at hIA ⊢
          by_cases h3 : d.flags ≠ 0
          · rw [if_pos h3]
          · rw [if_neg h3] at hIA ⊢
            by_cases h4 : d.title.size > 0 ∧ d.title.data = 0
            · rw [if_pos h4]
            · rw [if_neg h4] at hIA ⊢
              exfalso
              have hni := alloc_copy_title_no_invalid
                (free_title { ctx with size := { width := d.width, height := d.height } } a).1
                d.title
                (free_title { ctx with size := { width := d.width, height := d.height } } a).2
                h4 (by rw [free_title_host]; exact hal)
              split at hIA
              · exact hni hIA
              · simp [DNG_STATUS_OK, DNG_STATUS_INVALID_ARG] at hIA
  · intro raw_ctx ctx handle a hIA
    by_cases h1 : raw_ctx = 0 ∨ handle = 0
    · simp [window_destroy, catch_unwind_status, h1]
    · by_cases h2 : ctx.handle ≠ handle
      · simp [window_destroy, catch_unwind_status, h1, h2]
      · unfold window_destroy catch_unwind_status at hIA
        rw [if_neg h1, if_neg h2] at hIA
        simp [DNG_STATUS_OK, DNG_STATUS_INVALID_ARG] at hIA
  · intro raw_ctx ctx _
    exact poll_ctx raw_ctx ctx
  · intro raw_ctx ctx handle out_size _
    exact get_size_ctx raw_ctx ctx handle out_size
  · intro raw_ctx ctx handle t a hal hIA
    by_cases h1 : raw_ctx = 0 ∨ handle = 0
    · simp [window_set_title, catch_unwind_status, h1]
    · by_cases h2 : ctx.handle ≠ handle
      · simp [window_set_title, catch_unwind_status, h1, h2]
      · by_cases h3 : t.size > 0 ∧ t.data = 0
        · simp [window_set_title, catch_unwind_status, h1, h2, h3]
        · exfalso
          have hni := alloc_copy_title_no_invalid (free_title ctx a).1 t (free_title ctx a).2
            h3 (by rw [free_title_host]; exact hal)
          unfold window_set_title catch_unwind_status at hIA
          rw [if_neg h1, if_neg h2, if_neg h3] at hIA
          exact hni hIA
  · intro raw_ctx ctx host_ptr host a hcond hIA
    by_cases h1 : raw_ctx = 0 ∨ host_ptr = 0
    · simp [module_shutdown, catch_unwind_status, h1]
    · rcases hcond with hfp | hnt
      · unfold module_shutdown catch_unwind_status at hIA
        rw [if_neg h1] at hIA
        rw [if_neg (by simp [hfp])] at hIA
        simp [DNG_STATUS_OK, DNG_STATUS_INVALID_ARG] at hIA
      · have hfr : free_title ctx a = (ctx, a) := free_title_of_no_title ctx a hnt
        unfold module_shutdown catch_unwind_status
        rw [if_neg h1, hfr]
        split <;> rfl

theorem invalid_arg_preserves_state_witness :
    (window_destroy 0 freshCtx 1 emptyAlloc).2.1 = freshCtx :=
  invalid_arg_preserves_state.2.1 0 freshCtx 1 emptyAlloc (by decide)

/-- End-to-end scenario driver: entry point (context allocation), create with
title `t1`, set_title with `t2`, shutdown.  Host-table and output-slot
addresses are fixed non-null values; the allocator oracle serves `p1, p2, p3`
in order.  Returns the four statuses and the final allocator state. -/
def endToEndScenario (p1 p2 p3 : Ptr) (t1 t2 : dng_str_view_v1) (w h : Nat) :
    dng_status_v1 × dng_status_v1 × dng_status_v1 × dng_status_v1 × Alloc :=
  let a0 : Alloc := { responses := [p1, p2, p3], events := [] }
  let e := dngModuleGetApi_v1 1 validHost 2 a0
  match e.2.2.1 with
  | none => (e.1, DNG_STATUS_FAIL, DNG_STATUS_FAIL, DNG_STATUS_FAIL, e.2.2.2)
  | some pc =>
    let c := window_create pc.1 pc.2
      (some { width := w, height := h, title := t1, flags := 0 }) 3 e.2.2.2
    match c.2.2.1 with
    | none => (e.1, c.1, DNG_STATUS_FAIL, DNG_STATUS_FAIL, c.2.2.2)
    | some k =>
      let s := window_set_title pc.1 c.2.1 k t2 c.2.2.2
      let d := module_shutdown pc.1 s.2.1 1 validHost s.2.2
      (e.1, c.1, s.1, d.1, d.2.2)

/-- C6: over the scenario entry point → create (title t1) → set_title (t2) →
shutdown, all four calls succeed; the ledger records exactly 3 allocs and
3 frees; each free carries exactly the pointer, size and alignment of the
matching prior alloc; and the replay check (no double free, no outstanding
allocation at the end) passes. -/
theorem scenario_ledger_balanced (p1 p2 p3 d1 d2 s1 s2 w h : Nat)
    (h1 : p1 ≠ 0) (h2 : p2 ≠ 0) (h3 : p3 ≠ 0)
    (hd1 : d1 ≠ 0) (hd2 : d2 ≠ 0) (hs1 : 0 < s1) (hs2 : 0 < s2) :
    (endToEndScenario p1 p2 p3 { data := d1, size := s1 } { data := d2, size := s2 } w h).1
      = DNG_STATUS_OK ∧
    (endToEndScenario p1 p2 p3 { data := d1, size := s1 } { data := d2, size := s2 } w h).2.1
      = DNG_STATUS_OK ∧
    (endToEndScenario p1 p2 p3 { data := d1, size := s1 } { data := d2, size := s2 } w h).2.2.1
      = DNG_STATUS_OK ∧
    (endToEndScenario p1 p2 p3 { data := d1, size := s1 } { data := d2, size := s2 } w h).2.2.2.1
      = DNG_STATUS_OK ∧
    (endToEndScenario p1 p2 p3 { data := d1, size := s1 } { data := d2, size := s2 } w h).2.2.2.2.events
      = [AllocEvent.alloc p1 sizeof_NullWindowCtx alignof_NullWindowCtx,
         AllocEvent.alloc p2 s1 1,
         AllocEvent.free p2 s1 1,
         AllocEvent.alloc p3 s2 1,
         AllocEvent.free p3 s2 1,
         AllocEvent.free p1 sizeof_NullWindowCtx alignof_NullWindowCtx] ∧
    ledgerOk []
      (endToEndScenario p1 p2 p3 { data := d1, size := s1 } { data := d2, size := s2 } w h).2.2.2.2.events
      = true ∧
    ((endToEndScenario p1 p2 p3 { data := d1, size := s1 } { data := d2, size := s2 } w h).2.2.2.2.events.countP
      AllocEvent.isAlloc) = 3 ∧
    ((endToEndScenario p1 p2 p3 { data := d1, size := s1 } { data := d2, size := s2 } w h).2.2.2.2.events.countP
      AllocEvent.isFree) = 3 := by
  have hs1' : ¬s1 = 0 := by omega
  have hs2' : ¬s2 = 0 := by omega
  have key : endToEndScenario p1 p2 p3 { data := d1, size := s1 } { data := d2, size := s2 } w h =
      (DNG_STATUS_OK, DNG_STATUS_OK, DNG_STATUS_OK, DNG_STATUS_OK,
       { responses := [],
         events := [AllocEvent.alloc p1 sizeof_NullWindowCtx alignof_NullWindowCtx,
                    AllocEvent.alloc p2 s1 1,
                    AllocEvent.free p2 s1 1,
                    AllocEvent.alloc p3 s2 1,
                    AllocEvent.free p3 s2 1,
                    AllocEvent.free p1 sizeof_NullWindowCtx alignof_NullWindowCtx] }) := by
    simp [endToEndScenario, dngModuleGetApi_v1, window_create, window_set_title,
      module_shutdown, free_title, alloc_copy_title, catch_unwind_status,
      Alloc.doAlloc, Alloc.doFree, validHost, h1, h2, h3, hd1, hd2, hs1', hs2']
  rw [key]
  refine ⟨rfl, rfl, rfl, rfl, rfl, ?_, ?_, ?_⟩
  · simp [ledgerOk, removeFirst, h1, h2, h3]
  · simp [List.countP_cons, AllocEvent.isAlloc, AllocEvent.isFree]
  · simp [List.countP_cons, AllocEvent.isAlloc, AllocEvent.isFree]

theorem scenario_ledger_balanced_witness :
    (endToEndScenario 10 20 30 { data := 100, size := 3 } { data := 200, size := 5 } 640 480).1
      = DNG_STATUS_OK ∧
    (endToEndScenario 10 20 30 { data := 100, size := 3 } { data := 200, size := 5 } 640 480).2.1
      = DNG_STATUS_OK ∧
    (endToEndScenario 10 20 30 { data := 100, size := 3 } { data := 200, size := 5 } 640 480).2.2.1
      = DNG_STATUS_OK ∧
    (endToEndScenario 10 20 30 { data := 100, size := 3 } { data := 200, size := 5 } 640 480).2.2.2.1
      = DNG_STATUS_OK ∧
    (endToEndScenario 10 20 30 { data := 100, size := 3 } { data := 200, size := 5 } 640 480).2.2.2.2.events
      = [AllocEvent.alloc 10 sizeof_NullWindowCtx alignof_NullWindowCtx,
         AllocEvent.alloc 20 3 1,
         AllocEvent.free 20 3 1,
         AllocEvent.alloc 30 5 1,
         AllocEvent.free 30 5 1,
         AllocEvent.free 10 sizeof_NullWindowCtx alignof_NullWindowCtx] ∧
    ledgerOk []
      (endToEndScenario 10 20 30 { data := 100, size := 3 } { data := 200, size := 5 } 640 480).2.2.2.2.events
      = true ∧
    ((endToEndScenario 10 20 30 { data := 100, size := 3 } { data := 200, size := 5 } 640 480).2.2.2.2.events.countP
      AllocEvent.isAlloc) = 3 ∧
    ((endToEndScenario 10 20 30 { data := 100, size := 3 } { data := 200, size := 5 } 640 480).2.2.2.2.events.countP
      AllocEvent.isFree) = 3 :=
  scenario_ledger_balanced 10 20 30 100 200 3 5 640 480
    (by decide) (by decide) (by decide) (by decide) (by decide) (by decide) (by decide)
